import Mathlib

/-!
Verification of the fivewords round-lifecycle, submission, scoring and
word-pool logic. The definitions below are a shallow embedding of the
TypeScript source: the record types mirror the drizzle schema
(shared/schema.ts), the storage operations mirror `MemStorage`
(server/storage.ts), and the handler functions mirror the route handlers in
server/routes.ts. Time is modelled as a natural number supplied by the
caller; the random source of `generateRandomWords` is modelled as a stream
of natural numbers (one per loop iteration, reduced modulo the current pool
size, exactly the range `Math.floor(Math.random() * len)` produces).
-/

namespace FiveWords

/-- Mirrors the `games` table row (createdAt omitted; it is never read by
the logic under verification). -/
structure Game where
  id : Nat
  name : String
  createdBy : Nat
  currentRound : Nat
  totalRounds : Nat
  currentJudgeIndex : Nat
  status : String
  deriving DecidableEq, Repr

/-- Mirrors the `players` table row. -/
structure Player where
  id : Nat
  gameId : Nat
  userId : Nat
  score : Nat
  isHost : Bool
  deriving DecidableEq, Repr

/-- Mirrors the `rounds` table row. -/
structure Round where
  id : Nat
  gameId : Nat
  roundNumber : Nat
  judgeId : Nat
  words : List String
  status : String
  timeLimit : Nat
  endTime : Option Nat
  winnerId : Option Nat
  deriving DecidableEq, Repr

/-- Mirrors the `poems` table row. -/
structure Poem where
  id : Nat
  roundId : Nat
  playerId : Nat
  content : String
  submitted : Bool
  submittedAt : Option Nat
  deriving DecidableEq, Repr

/-- The in-memory store of `MemStorage`: the maps become lists of records
(looked up by id), the id counters are carried explicitly. -/
structure Storage where
  games : List Game
  players : List Player
  rounds : List Round
  poems : List Poem
  gameIdCounter : Nat
  playerIdCounter : Nat
  roundIdCounter : Nat
  poemIdCounter : Nat
  deriving DecidableEq, Repr

/-- `MemStorage.getGame`. -/
def getGame (st : Storage) (id : Nat) : Option Game :=
  st.games.find? (fun g => g.id == id)

/-- `MemStorage.getRound`. -/
def getRound (st : Storage) (id : Nat) : Option Round :=
  st.rounds.find? (fun r => r.id == id)

/-- `MemStorage.getPoem`. -/
def getPoem (st : Storage) (id : Nat) : Option Poem :=
  st.poems.find? (fun p => p.id == id)

/-- The `this.players.get(playerId)` lookup used by
`MemStorage.updatePlayerScore` and `getPlayerScore`. -/
def getPlayer (st : Storage) (id : Nat) : Option Player :=
  st.players.find? (fun p => p.id == id)

/-- `MemStorage.getPoemsByRound`. -/
def getPoemsByRound (st : Storage) (roundId : Nat) : List Poem :=
  st.poems.filter (fun p => p.roundId == roundId)

/-- `MemStorage.getPlayersByGame`. -/
def getPlayersByGame (st : Storage) (gameId : Nat) : List Player :=
  st.players.filter (fun p => p.gameId == gameId)

/-- `MemStorage.updateRoundStatus`: unconditionally overwrites the status of
the round with the given id (no transition check of any kind). -/
def updateRoundStatus (st : Storage) (id : Nat) (status : String) : Storage :=
  { st with rounds := st.rounds.map fun r =>
      if r.id == id then { r with status := status } else r }

/-- `MemStorage.setRoundWinner`: sets the winner and forces status
`"completed"`. -/
def setRoundWinner (st : Storage) (id winnerId : Nat) : Storage :=
  { st with rounds := st.rounds.map fun r =>
      if r.id == id then
        { r with winnerId := some winnerId, status := "completed" }
      else r }

/-- `MemStorage.updateRoundEndTime`. -/
def updateRoundEndTime (st : Storage) (id : Nat) (endTime : Nat) : Storage :=
  { st with rounds := st.rounds.map fun r =>
      if r.id == id then { r with endTime := some endTime } else r }

/-- `MemStorage.updatePlayerScore`: adds the increment to the score of the
player record keyed by `playerId` (a no-op when no such record exists). -/
def updatePlayerScore (st : Storage) (playerId inc : Nat) : Storage :=
  { st with players := st.players.map fun p =>
      if p.id == playerId then { p with score := p.score + inc } else p }

/-- `MemStorage.updatePoem`: unconditionally overwrites the content. -/
def updatePoemContent (st : Storage) (id : Nat) (content : String) : Storage :=
  { st with poems := st.poems.map fun p =>
      if p.id == id then { p with content := content } else p }

/-- `MemStorage.submitPoem`: sets the submitted flag and the timestamp. -/
def submitPoem (st : Storage) (id now : Nat) : Storage :=
  { st with poems := st.poems.map fun p =>
      if p.id == id then
        { p with submitted := true, submittedAt := some now }
      else p }

/-- `MemStorage.updateGame` with a `Partial<Game>`: the record spread is
modelled as applying the field updates to the stored game. -/
def updateGame (st : Storage) (id : Nat) (upd : Game → Game) : Storage :=
  { st with games := st.games.map fun g =>
      if g.id == id then upd g else g }

/-- `MemStorage.createGame`: fresh id, `currentRound = 1`,
`currentJudgeIndex = 0`, status `"waiting"`. -/
def createGame (st : Storage) (name : String) (createdBy totalRounds : Nat) :
    Game × Storage :=
  let g : Game :=
    { id := st.gameIdCounter, name := name, createdBy := createdBy,
      currentRound := 1, totalRounds := totalRounds,
      currentJudgeIndex := 0, status := "waiting" }
  (g, { st with games := st.games ++ [g], gameIdCounter := st.gameIdCounter + 1 })

/-- `MemStorage.addPlayerToGame`: fresh id, score 0. -/
def addPlayerToGame (st : Storage) (gameId userId : Nat) (isHost : Bool) :
    Player × Storage :=
  let p : Player :=
    { id := st.playerIdCounter, gameId := gameId, userId := userId,
      score := 0, isHost := isHost }
  (p,
   { st with
     players := st.players ++ [p], playerIdCounter := st.playerIdCounter + 1 })

/-- `MemStorage.createRound`: fresh id, status `"setup"`, no winner, no end
time. -/
def createRound (st : Storage) (gameId roundNumber judgeId : Nat)
    (words : List String) (timeLimit : Nat) : Round × Storage :=
  let r : Round :=
    { id := st.roundIdCounter, gameId := gameId, roundNumber := roundNumber,
      judgeId := judgeId, words := words, status := "setup",
      timeLimit := timeLimit, endTime := none, winnerId := none }
  (r,
   { st with
     rounds := st.rounds ++ [r], roundIdCounter := st.roundIdCounter + 1 })

/-- `MemStorage.createPoem`: fresh id, not submitted, no timestamp. -/
def createPoem (st : Storage) (roundId playerId : Nat) (content : String) :
    Poem × Storage :=
  let p : Poem :=
    { id := st.poemIdCounter, roundId := roundId, playerId := playerId,
      content := content, submitted := false, submittedAt := none }
  (p,
   { st with
     poems := st.poems ++ [p], poemIdCounter := st.poemIdCounter + 1 })

/-- The `!poem.content.trim()` emptiness test of the submit route: a string
trims to the empty string exactly when every character is whitespace, so the
test is embedded at the character level (this avoids the byte-position
recursion inside `String.trim`, which proofs cannot evaluate). -/
def trimIsEmpty (s : String) : Bool :=
  s.data.all (fun c => c.isWhitespace)

/-- The `poems.every(p => p.submitted)` check of the submit route, exposed
as the spec's `allSubmitted(roundId)`. -/
def allSubmitted (st : Storage) (roundId : Nat) : Bool :=
  (getPoemsByRound st roundId).all (fun p => p.submitted)

/-- The error taxonomy surfaced by the routes: 404 responses are `notFound`,
400 responses are `validationError`. -/
inductive ApiError where
  | notFound (msg : String)
  | validationError (msg : String)
  deriving DecidableEq, Repr

deriving instance DecidableEq for Except

/-- The `PUT /rounds/:id/status` handler: validates the status against the
zod enum, looks the round up, sets the end time when moving to writing, and
overwrites the status — with no check of the previous status. -/
def updateRoundStatusHandler (st : Storage) (roundId : Nat) (status : String)
    (now : Nat) : Except ApiError Unit × Storage :=
  if status ∈ (["setup", "writing", "judging", "completed"] : List String) then
    match getRound st roundId with
    | none => (.error (.notFound "Round not found"), st)
    | some round =>
      let st1 := if status = "writing" then
          updateRoundEndTime st roundId (now + round.timeLimit) else st
      (.ok (), updateRoundStatus st1 roundId status)
  else
    (.error (.validationError "Invalid status"), st)

/-- The `PUT /poems/:id` handler: overwrites the content whenever the poem
exists, with no check of the submitted flag or the round status. -/
def updatePoemHandler (st : Storage) (poemId : Nat) (content : String) :
    Except ApiError Unit × Storage :=
  match getPoem st poemId with
  | none => (.error (.notFound "Poem not found"), st)
  | some _ => (.ok (), updatePoemContent st poemId content)

/-- The `POST /poems/:id/submit` handler: rejects blank content, otherwise
marks the poem submitted and, when every poem of the round is then
submitted and the round is in writing, auto-transitions the round to
judging. -/
def submitPoemHandler (st : Storage) (poemId now : Nat) :
    Except ApiError Unit × Storage :=
  match getPoem st poemId with
  | none => (.error (.notFound "Poem not found"), st)
  | some poem =>
    if trimIsEmpty poem.content then
      (.error (.validationError "Cannot submit empty poem"), st)
    else
      let st1 := submitPoem st poemId now
      let st2 :=
        match getRound st1 poem.roundId with
        | none => st1
        | some round =>
          if allSubmitted st1 round.id ∧ round.status = "writing" then
            updateRoundStatus st1 round.id "judging"
          else st1
      (.ok (), st2)

/-- The `POST /rounds/:id/winner` handler: looks up the poem, takes its
`playerId` as the winner id, sets the round winner (which also completes
the round) and adds 1 to the score of the player record with that id —
with no check that the round is still in judging. -/
def selectWinnerHandler (st : Storage) (roundId poemId : Nat) :
    Except ApiError Unit × Storage :=
  match getPoem st poemId with
  | none => (.error (.notFound "Poem not found"), st)
  | some poem =>
    match getRound st roundId with
    | none => (.error (.notFound "Round not found"), st)
    | some _ =>
      let st1 := setRoundWinner st roundId poem.playerId
      (.ok (), updatePlayerScore st1 poem.playerId 1)

/-- The per-player poem-creation loop shared by the game-creation and
next-round handlers: skip the entry the `skip` test matches (the judge),
create an empty poem keyed by `key` for every other entry. -/
def createPoemsFold {α : Type} (roundId : Nat) (skip : α → Bool)
    (key : α → Nat) (xs : List α) (st : Storage) : Storage :=
  xs.foldl (fun acc x =>
    if skip x then acc else (createPoem acc roundId (key x) "").2) st

/-- The player-insertion loop of the game-creation handler: the entry at
index 0 is the host. -/
def addPlayersFold (gameId : Nat) (pairs : List (Nat × Nat)) (st : Storage) :
    Storage :=
  pairs.foldl (fun acc iu => (addPlayerToGame acc gameId iu.2 (iu.1 == 0)).2) st

/-- The `POST /games` handler: after the zod validation of
`createGameRequestSchema` (name length 1..100, totalRounds 1..10, 2..5
player ids), the first requested user id is the host and the first round's
judge; one empty poem is created
per requested user id other than the host, carrying that USER id in its
`playerId` field. -/
def createGameHandler (st : Storage) (name : String) (totalRounds : Nat)
    (playerIds : List Nat) (words : List String) :
    Except ApiError Unit × Storage :=
  if h : 1 ≤ name.length ∧ name.length ≤ 100 ∧
      1 ≤ totalRounds ∧ totalRounds ≤ 10 ∧
      2 ≤ playerIds.length ∧ playerIds.length ≤ 5 then
    let hostId := playerIds.get ⟨0, by omega⟩
    let (game, st1) := createGame st name hostId totalRounds
    let st2 := addPlayersFold game.id playerIds.enum st1
    let (round, st3) := createRound st2 game.id 1 hostId words 300
    let st4 := createPoemsFold round.id (fun uid => uid == hostId)
        (fun uid => uid) playerIds st3
    (.ok (), st4)
  else
    (.error (.validationError "Invalid game data"), st)

/-- The `POST /games/:id/next-round` handler: on an exhausted game it first
marks the game completed and then returns the error; otherwise it checks
the roster size, rotates the judge index modulo the roster size, bumps the
round counter, creates the round and one empty poem per non-judge player,
carrying the PLAYER record id in `playerId`. -/
def nextRoundHandler (st : Storage) (gameId : Nat) (words : List String) :
    Except ApiError Unit × Storage :=
  match getGame st gameId with
  | none => (.error (.notFound "Game not found"), st)
  | some game =>
    if game.currentRound ≥ game.totalRounds then
      let st1 := updateGame st gameId (fun g => { g with status := "completed" })
      (.error (.validationError "Game is already completed"), st1)
    else
      let players := getPlayersByGame st gameId
      if h : players.length < 2 then
        (.error (.validationError "Not enough players"), st)
      else
        let nextJudgeIndex := (game.currentJudgeIndex + 1) % players.length
        let nextJudge := players.get ⟨nextJudgeIndex, Nat.mod_lt _ (by omega)⟩
        let nextRoundNumber := game.currentRound + 1
        let st1 := updateGame st gameId (fun g =>
          { g with currentRound := nextRoundNumber,
                   currentJudgeIndex := nextJudgeIndex })
        let (newRound, st2) :=
          createRound st1 gameId nextRoundNumber nextJudge.userId words 300
        let st3 := createPoemsFold newRound.id
            (fun p => p.userId == nextJudge.userId) (fun p => p.id) players st2
        (.ok (), st3)

/-- The static word pool of shared/wordGenerator.ts (6 thematic groups of
20 words each). -/
def poeticWords : List String :=
  ["ocean", "mountain", "forest", "river", "sky",
   "moon", "star", "sun", "cloud", "rain",
   "flower", "tree", "leaf", "thunder", "wind",
   "dawn", "dusk", "twilight", "sunrise", "sunset",
   "morning", "evening", "night", "day", "moment",
   "eternity", "forever", "instant", "season", "autumn",
   "winter", "spring", "summer", "time", "hour",
   "midnight", "memory", "yesterday", "tomorrow", "today",
   "love", "hope", "dream", "joy", "sorrow",
   "anger", "peace", "fear", "wonder", "desire",
   "passion", "longing", "grief", "delight", "despair",
   "courage", "faith", "trust", "loneliness", "serenity",
   "freedom", "truth", "beauty", "silence", "whisper",
   "shadow", "light", "darkness", "echo", "journey",
   "mirror", "reflection", "spirit", "soul", "destiny",
   "fate", "wisdom", "infinity", "mystery", "secret",
   "feather", "glass", "stone", "crystal", "candle",
   "flame", "door", "window", "bridge", "path",
   "treasure", "veil", "key", "crown", "sword",
   "book", "page", "letter", "portrait", "melody",
   "ancient", "eternal", "fragile", "broken", "golden",
   "silver", "velvet", "crimson", "azure", "emerald",
   "silent", "hollow", "sacred", "wild", "gentle",
   "fierce", "luminous", "hidden", "forgotten", "distant"]

/-- The selection loop of `generateRandomWords`: at each step pick the word
at position `rand 0 % length` of the remaining pool, remove it, and recurse
on the shifted random stream; stop when the pool is exhausted or the count
is reached. -/
def drawLoop : Nat → (Nat → Nat) → List String → List String
  | 0, _, _ => []
  | n + 1, rand, avail =>
    if h : avail.length = 0 then []
    else
      let idx := rand 0 % avail.length
      let selected := avail.get ⟨idx, Nat.mod_lt _ (Nat.pos_of_ne_zero h)⟩
      selected :: drawLoop n (fun i => rand (i + 1)) (avail.eraseIdx idx)

/-- `generateRandomWords` of shared/wordGenerator.ts, the random source
abstracted as a stream of naturals. -/
def generateRandomWords (count : Nat) (rand : Nat → Nat) : List String :=
  drawLoop count rand poeticWords

/-! ### Generic lemmas about lookup after a keyed list update -/

/-- `find?` commutes with a `map` whose function does not change whether an
element satisfies the predicate. -/
theorem find?_map_pred {α : Type} (f : α → α) (p : α → Bool)
    (hp : ∀ x, p (f x) = p x) :
    ∀ l : List α, (l.map f).find? p = (l.find? p).map f
  | [] => rfl
  | a :: l => by
    cases hpa : p a with
    | true =>
      rw [List.map_cons, List.find?_cons_of_pos _ (by rw [hp]; exact hpa),
        List.find?_cons_of_pos _ hpa]
      rfl
    | false =>
      rw [List.map_cons, List.find?_cons_of_neg _ (by simp [hp, hpa]),
        List.find?_cons_of_neg _ (by simp [hpa]), find?_map_pred f p hp l]

theorem getRound_updateRoundStatus_self {st : Storage} {rid : Nat} {r : Round}
    (h : getRound st rid = some r) (s : String) :
    getRound (updateRoundStatus st rid s) rid = some { r with status := s } := by
  unfold getRound at h
  have hid : r.id = rid := by simpa using List.find?_some h
  unfold getRound updateRoundStatus
  rw [find?_map_pred _ _ (fun x => by by_cases hx : (x.id == rid) = true <;>
    simp [hx])]
  rw [h]
  simp [hid]

theorem getRound_updateRoundEndTime_self {st : Storage} {rid : Nat} {r : Round}
    (h : getRound st rid = some r) (t : Nat) :
    getRound (updateRoundEndTime st rid t) rid = some { r with endTime := some t } := by
  unfold getRound at h
  have hid : r.id = rid := by simpa using List.find?_some h
  unfold getRound updateRoundEndTime
  rw [find?_map_pred _ _ (fun x => by by_cases hx : (x.id == rid) = true <;>
    simp [hx])]
  rw [h]
  simp [hid]

theorem getRound_setRoundWinner_self {st : Storage} {rid : Nat} {r : Round}
    (h : getRound st rid = some r) (w : Nat) :
    getRound (setRoundWinner st rid w) rid =
      some { r with winnerId := some w, status := "completed" } := by
  unfold getRound at h
  have hid : r.id = rid := by simpa using List.find?_some h
  unfold getRound setRoundWinner
  rw [find?_map_pred _ _ (fun x => by by_cases hx : (x.id == rid) = true <;>
    simp [hx])]
  rw [h]
  simp [hid]

theorem getPlayer_updatePlayerScore_self {st : Storage} {pid : Nat} {p : Player}
    (h : getPlayer st pid = some p) (inc : Nat) :
    getPlayer (updatePlayerScore st pid inc) pid =
      some { p with score := p.score + inc } := by
  unfold getPlayer at h
  have hid : p.id = pid := by simpa using List.find?_some h
  unfold getPlayer updatePlayerScore
  rw [find?_map_pred _ _ (fun x => by by_cases hx : (x.id == pid) = true <;>
    simp [hx])]
  rw [h]
  simp [hid]

theorem getPlayer_updatePlayerScore_other {st : Storage} {pid pid' inc : Nat}
    (h : pid' ≠ pid) :
    getPlayer (updatePlayerScore st pid inc) pid' = getPlayer st pid' := by
  unfold getPlayer updatePlayerScore
  rw [find?_map_pred _ _ (fun x => by by_cases hx : (x.id == pid) = true <;>
    simp [hx])]
  cases hf : st.players.find? (fun x => x.id == pid') with
  | none => rfl
  | some q =>
    have hq : q.id = pid' := by simpa using List.find?_some hf
    have hne : q.id ≠ pid := by omega
    simp [hne]

theorem getPoem_submitPoem_self {st : Storage} {pid : Nat} {q : Poem}
    (h : getPoem st pid = some q) (now : Nat) :
    getPoem (submitPoem st pid now) pid =
      some { q with submitted := true, submittedAt := some now } := by
  unfold getPoem at h
  have hid : q.id = pid := by simpa using List.find?_some h
  unfold getPoem submitPoem
  rw [find?_map_pred _ _ (fun x => by by_cases hx : (x.id == pid) = true <;>
    simp [hx])]
  rw [h]
  simp [hid]

theorem getPoem_updatePoemContent_self {st : Storage} {pid : Nat} {q : Poem}
    (h : getPoem st pid = some q) (c : String) :
    getPoem (updatePoemContent st pid c) pid = some { q with content := c } := by
  unfold getPoem at h
  have hid : q.id = pid := by simpa using List.find?_some h
  unfold getPoem updatePoemContent
  rw [find?_map_pred _ _ (fun x => by by_cases hx : (x.id == pid) = true <;>
    simp [hx])]
  rw [h]
  simp [hid]

theorem getGame_updateGame_self {st : Storage} {gid : Nat} {g : Game}
    (h : getGame st gid = some g) (upd : Game → Game)
    (hupd : ∀ x, (upd x).id = x.id) :
    getGame (updateGame st gid upd) gid = some (upd g) := by
  unfold getGame at h
  have hid : g.id = gid := by simpa using List.find?_some h
  unfold getGame updateGame
  rw [find?_map_pred _ _ (fun x => by by_cases hx : (x.id == gid) = true <;>
    simp [hupd, hx])]
  rw [h]
  simp [hid]

/-! ### Lemmas about the poem/player creation loops -/

theorem createPoemsFold_games {α : Type} (rid : Nat) (skip : α → Bool)
    (key : α → Nat) : ∀ (xs : List α) (st : Storage),
    (createPoemsFold rid skip key xs st).games = st.games
  | [], _ => rfl
  | x :: xs, st => by
    show (createPoemsFold rid skip key xs
      (if skip x then st else (createPoem st rid (key x) "").2)).games = st.games
    by_cases hx : skip x
    · rw [if_pos hx]; exact createPoemsFold_games rid skip key xs st
    · rw [if_neg hx, createPoemsFold_games rid skip key xs _]; rfl

theorem createPoemsFold_players {α : Type} (rid : Nat) (skip : α → Bool)
    (key : α → Nat) : ∀ (xs : List α) (st : Storage),
    (createPoemsFold rid skip key xs st).players = st.players
  | [], _ => rfl
  | x :: xs, st => by
    show (createPoemsFold rid skip key xs
      (if skip x then st else (createPoem st rid (key x) "").2)).players = st.players
    by_cases hx : skip x
    · rw [if_pos hx]; exact createPoemsFold_players rid skip key xs st
    · rw [if_neg hx, createPoemsFold_players rid skip key xs _]; rfl

theorem createPoemsFold_rounds {α : Type} (rid : Nat) (skip : α → Bool)
    (key : α → Nat) : ∀ (xs : List α) (st : Storage),
    (createPoemsFold rid skip key xs st).rounds = st.rounds
  | [], _ => rfl
  | x :: xs, st => by
    show (createPoemsFold rid skip key xs
      (if skip x then st else (createPoem st rid (key x) "").2)).rounds = st.rounds
    by_cases hx : skip x
    · rw [if_pos hx]; exact createPoemsFold_rounds rid skip key xs st
    · rw [if_neg hx, createPoemsFold_rounds rid skip key xs _]; rfl

theorem createPoemsFold_poems_mono {α : Type} (rid : Nat) (skip : α → Bool)
    (key : α → Nat) : ∀ (xs : List α) (st : Storage) (q : Poem),
    q ∈ st.poems → q ∈ (createPoemsFold rid skip key xs st).poems
  | [], _, _, hq => hq
  | x :: xs, st, q, hq => by
    show q ∈ (createPoemsFold rid skip key xs
      (if skip x then st else (createPoem st rid (key x) "").2)).poems
    by_cases hx : skip x
    · rw [if_pos hx]; exact createPoemsFold_poems_mono rid skip key xs st q hq
    · rw [if_neg hx]
      exact createPoemsFold_poems_mono rid skip key xs _ q
        (List.mem_append_left _ hq)

theorem createPoemsFold_mem {α : Type} (rid : Nat) (skip : α → Bool)
    (key : α → Nat) : ∀ (xs : List α) (st : Storage) (x : α),
    x ∈ xs → skip x = false →
    ∃ q ∈ (createPoemsFold rid skip key xs st).poems,
      q.roundId = rid ∧ q.playerId = key x ∧ q.submitted = false
  | [], _, _, hx, _ => absurd hx (List.not_mem_nil _)
  | y :: xs, st, x, hx, hskip => by
    show ∃ q ∈ (createPoemsFold rid skip key xs
      (if skip y then st else (createPoem st rid (key y) "").2)).poems,
      q.roundId = rid ∧ q.playerId = key x ∧ q.submitted = false
    rcases List.mem_cons.mp hx with h1 | h2
    · subst h1
      rw [if_neg (by simp [hskip])]
      refine ⟨⟨st.poemIdCounter, rid, key x, "", false, none⟩, ?_, rfl, rfl, rfl⟩
      exact createPoemsFold_poems_mono rid skip key xs _ _
        (List.mem_append_right _ (List.mem_singleton_self _))
    · exact createPoemsFold_mem rid skip key xs _ x h2 hskip

theorem addPlayersFold_poems (gid : Nat) : ∀ (prs : List (Nat × Nat)) (st : Storage),
    (addPlayersFold gid prs st).poems = st.poems
  | [], _ => rfl
  | p :: prs, st => by
    show (addPlayersFold gid prs (addPlayerToGame st gid p.2 (p.1 == 0)).2).poems
      = st.poems
    rw [addPlayersFold_poems gid prs _]; rfl

theorem addPlayersFold_rounds (gid : Nat) : ∀ (prs : List (Nat × Nat)) (st : Storage),
    (addPlayersFold gid prs st).rounds = st.rounds
  | [], _ => rfl
  | p :: prs, st => by
    show (addPlayersFold gid prs (addPlayerToGame st gid p.2 (p.1 == 0)).2).rounds
      = st.rounds
    rw [addPlayersFold_rounds gid prs _]; rfl

/-! ### Lemmas about the word-draw loop -/

theorem drawLoop_subset : ∀ (n : Nat) (rand : Nat → Nat) (avail : List String),
    ∀ w ∈ drawLoop n rand avail, w ∈ avail
  | 0, _, _ => by intro w hw; simp [drawLoop] at hw
  | n + 1, rand, avail => by
    intro w hw
    unfold drawLoop at hw
    by_cases h : avail.length = 0
    · rw [dif_pos h] at hw; simp at hw
    · rw [dif_neg h] at hw
      rcases List.mem_cons.mp hw with h1 | h2
      · subst h1; exact avail.get_mem _ _
      · exact (avail.eraseIdx_sublist _).subset (drawLoop_subset n _ _ w h2)

theorem get_not_mem_eraseIdx {α : Type} :
    ∀ (l : List α) (i : Nat) (h : i < l.length),
    l.Nodup → l.get ⟨i, h⟩ ∉ l.eraseIdx i
  | [], i, h, _ => absurd h (by simp)
  | a :: l, 0, _, hnd => by
    simp only [List.eraseIdx, List.get]
    exact (List.nodup_cons.mp hnd).1
  | a :: l, i + 1, h, hnd => by
    simp only [List.eraseIdx, List.get, List.mem_cons]
    rintro (h1 | h2)
    · exact absurd (h1 ▸ List.get_mem l i _)
        (List.nodup_cons.mp hnd).1
    · exact get_not_mem_eraseIdx l i (by simpa using h)
        (List.nodup_cons.mp hnd).2 h2

theorem drawLoop_nodup : ∀ (n : Nat) (rand : Nat → Nat) (avail : List String),
    avail.Nodup → (drawLoop n rand avail).Nodup
  | 0, _, _, _ => by simp [drawLoop]
  | n + 1, rand, avail, hnd => by
    unfold drawLoop
    by_cases h : avail.length = 0
    · rw [dif_pos h]; exact List.nodup_nil
    · rw [dif_neg h]
      refine List.nodup_cons.mpr ⟨?_, ?_⟩
      · intro hmem
        exact get_not_mem_eraseIdx avail _ _ hnd
          (drawLoop_subset n _ _ _ hmem)
      · exact drawLoop_nodup n _ _
          ((avail.eraseIdx_sublist _).nodup hnd)

theorem drawLoop_length : ∀ (n : Nat) (rand : Nat → Nat) (avail : List String),
    (drawLoop n rand avail).length = min n avail.length
  | 0, _, avail => by simp [drawLoop]
  | n + 1, rand, avail => by
    unfold drawLoop
    by_cases h : avail.length = 0
    · rw [dif_pos h, h]; simp
    · rw [dif_neg h]
      have hlt : rand 0 % avail.length < avail.length :=
        Nat.mod_lt _ (Nat.pos_of_ne_zero h)
      have he : (avail.eraseIdx (rand 0 % avail.length)).length + 1
          = avail.length := List.length_eraseIdx_add_one hlt
      rw [List.length_cons, drawLoop_length n _ _]
      omega

/-! ### Concrete states used to witness the theorems -/

/-- A round already completed, for exercising the unguarded status route. -/
def cexRoundStore : Storage :=
  { games := [], players := [],
    rounds := [⟨1, 1, 1, 10, ["ocean", "star", "rain", "moon", "sky"],
      "completed", 300, none, some 2⟩],
    poems := [], gameIdCounter := 1, playerIdCounter := 1,
    roundIdCounter := 2, poemIdCounter := 1 }

/-- A submitted poem, for exercising the unguarded content route. -/
def cexPoemStore : Storage :=
  { games := [], players := [], rounds := [],
    poems := [⟨1, 1, 2, "old poem", true, some 5⟩],
    gameIdCounter := 1, playerIdCounter := 1,
    roundIdCounter := 1, poemIdCounter := 2 }

/-- The round of `judgingStore`. -/
def jRound : Round :=
  ⟨1, 1, 1, 10, ["ocean", "star", "rain", "moon", "sky"], "judging",
   300, none, none⟩

/-- The first poem of `judgingStore`, authored by player record 2. -/
def jPoem : Poem := ⟨1, 1, 2, "a poem", true, some 5⟩

/-- The player record 2 of `judgingStore`. -/
def jPlayer : Player := ⟨2, 1, 20, 0, false⟩

/-- The game of `judgingStore`. -/
def jGame : Game := ⟨1, "g", 10, 1, 3, 0, "active"⟩

/-- A three-player game whose first round is in judging with both poems
submitted. -/
def judgingStore : Storage :=
  { games := [jGame],
    players := [⟨1, 1, 10, 0, true⟩, jPlayer, ⟨3, 1, 30, 0, false⟩],
    rounds := [jRound],
    poems := [jPoem, ⟨2, 1, 3, "b poem", true, some 6⟩],
    gameIdCounter := 2, playerIdCounter := 4,
    roundIdCounter := 2, poemIdCounter := 3 }

/-! ### C1: round-status transitions -/

/-- C1 counterexample: the claim says a transition out of `completed` fails
with an invalid-transition error and leaves the status unchanged; on the
code, requesting `setup` on a completed round succeeds and regresses the
status. -/
theorem status_transition_unguarded_cex :
    (getRound cexRoundStore 1).map (fun r => r.status) = some "completed" ∧
    (updateRoundStatusHandler cexRoundStore 1 "setup" 0).1 = .ok () ∧
    (getRound (updateRoundStatusHandler cexRoundStore 1 "setup" 0).2 1).map
      (fun r => r.status) = some "setup" := by decide

/-- C1 amended: the status route performs no transition validation at all:
for any existing round and any of the four statuses, the request succeeds
and the round takes the requested status — regression included. -/
theorem updateRoundStatusHandler_sets_any_status
    {st : Storage} {roundId : Nat} {status : String} {now : Nat} {round : Round}
    (hr : getRound st roundId = some round)
    (hs : status ∈ (["setup", "writing", "judging", "completed"] : List String)) :
    ∃ st', updateRoundStatusHandler st roundId status now = (.ok (), st') ∧
      ∃ r', getRound st' roundId = some r' ∧ r'.status = status := by
  unfold updateRoundStatusHandler
  rw [if_pos hs, hr]
  show ∃ st',
    (Except.ok (), updateRoundStatus
      (if status = "writing" then
        updateRoundEndTime st roundId (now + round.timeLimit) else st)
      roundId status) = (Except.ok (), st') ∧
    ∃ r', getRound st' roundId = some r' ∧ r'.status = status
  by_cases hw : status = "writing"
  · rw [if_pos hw]
    exact ⟨_, rfl, _,
      getRound_updateRoundStatus_self
        (getRound_updateRoundEndTime_self hr (now + round.timeLimit)) status, rfl⟩
  · rw [if_neg hw]
    exact ⟨_, rfl, _, getRound_updateRoundStatus_self hr status, rfl⟩

/-- C1 witness: the amended theorem applied to the judging round of
`judgingStore`, regressed to `setup`. -/
theorem updateRoundStatusHandler_sets_any_status_witness :
    (getRound judgingStore 1 = some jRound ∧
     "setup" ∈ (["setup", "writing", "judging", "completed"] : List String)) ∧
    (∃ st', updateRoundStatusHandler judgingStore 1 "setup" 0 = (.ok (), st') ∧
      ∃ r', getRound st' 1 = some r' ∧ r'.status = "setup") :=
  ⟨by decide, @updateRoundStatusHandler_sets_any_status judgingStore 1 "setup" 0
    jRound (by decide) (by decide)⟩

/-! ### C4: poem content immutability -/

/-- C4 counterexample: the claim says content is immutable after
submission; on the code, updating a submitted poem succeeds and overwrites
the content. -/
theorem updatePoem_after_submit_cex :
    (getPoem cexPoemStore 1).map (fun p => (p.submitted, p.content))
      = some (true, "old poem") ∧
    (updatePoemHandler cexPoemStore 1 "new text").1 = .ok () ∧
    (getPoem (updatePoemHandler cexPoemStore 1 "new text").2 1).map
      (fun p => p.content) = some "new text" := by decide

/-- C4 amended: the content route overwrites a poem's content whenever the
poem exists, with no guard on the submitted flag or the round status. -/
theorem updatePoemHandler_unconditional
    {st : Storage} {poemId : Nat} {content : String} {poem : Poem}
    (hp : getPoem st poemId = some poem) :
    ∃ st', updatePoemHandler st poemId content = (.ok (), st') ∧
      getPoem st' poemId = some { poem with content := content } := by
  unfold updatePoemHandler
  rw [hp]
  exact ⟨_, rfl, getPoem_updatePoemContent_self hp content⟩

/-- C4 witness: the amended theorem applied to the (already submitted) poem
1 of `judgingStore`. -/
theorem updatePoemHandler_unconditional_witness :
    (getPoem judgingStore 1 = some jPoem) ∧
    (∃ st', updatePoemHandler judgingStore 1 "rewritten" = (.ok (), st') ∧
      getPoem st' 1 = some { jPoem with content := "rewritten" }) :=
  ⟨by decide, @updatePoemHandler_unconditional judgingStore 1 "rewritten" jPoem
    (by decide)⟩

/-- Reduction of the winner route when the round is missing. -/
theorem selectWinnerHandler_eq_notFound {st : Storage} {roundId poemId : Nat}
    {poem : Poem}
    (hp : getPoem st poemId = some poem) (hr : getRound st roundId = none) :
    selectWinnerHandler st roundId poemId =
      (.error (.notFound "Round not found"), st) := by
  unfold selectWinnerHandler; rw [hp, hr]

/-- Reduction of the winner route when poem and round both exist. -/
theorem selectWinnerHandler_eq {st : Storage} {roundId poemId : Nat}
    {poem : Poem} {r : Round}
    (hp : getPoem st poemId = some poem) (hr : getRound st roundId = some r) :
    selectWinnerHandler st roundId poemId =
      (.ok (), updatePlayerScore (setRoundWinner st roundId poem.playerId)
        poem.playerId 1) := by
  unfold selectWinnerHandler; rw [hp, hr]

/-! ### C2: winner selection effects -/

/-- C2: on a judging round, selecting a poem of that round as winner
returns ok, records the poem's author as the round winner, completes the
round, adds exactly 1 to that author's player record, and leaves the
lookup of every other player id unchanged. -/
theorem selectWinner_scores_author
    {st : Storage} {roundId poemId : Nat} {round : Round} {poem : Poem}
    {pl : Player}
    (hr : getRound st roundId = some round)
    (hjudging : round.status = "judging")
    (hp : getPoem st poemId = some poem)
    (hpr : poem.roundId = roundId)
    (hpl : getPlayer st poem.playerId = some pl) :
    (selectWinnerHandler st roundId poemId).1 = .ok () ∧
    getRound (selectWinnerHandler st roundId poemId).2 roundId =
      some { round with winnerId := some poem.playerId, status := "completed" } ∧
    getPlayer (selectWinnerHandler st roundId poemId).2 poem.playerId =
      some { pl with score := pl.score + 1 } ∧
    ∀ pid, pid ≠ poem.playerId →
      getPlayer (selectWinnerHandler st roundId poemId).2 pid
        = getPlayer st pid := by
  have hval := selectWinnerHandler_eq hp hr
  rw [hval]
  refine ⟨rfl, ?_, ?_, ?_⟩
  · exact getRound_setRoundWinner_self hr poem.playerId
  · exact getPlayer_updatePlayerScore_self
      (show getPlayer (setRoundWinner st roundId poem.playerId) poem.playerId
        = some pl from hpl) 1
  · intro pid hne
    rw [getPlayer_updatePlayerScore_other hne]
    rfl

/-- C2 witness: selecting poem 1 (author player record 2) on the judging
round of `judgingStore`. -/
theorem selectWinner_scores_author_witness :
    (getRound judgingStore 1 = some jRound ∧ jRound.status = "judging" ∧
     getPoem judgingStore 1 = some jPoem ∧ jPoem.roundId = 1 ∧
     getPlayer judgingStore jPoem.playerId = some jPlayer) ∧
    ((selectWinnerHandler judgingStore 1 1).1 = .ok () ∧
     getRound (selectWinnerHandler judgingStore 1 1).2 1 =
       some { jRound with winnerId := some jPoem.playerId, status := "completed" } ∧
     getPlayer (selectWinnerHandler judgingStore 1 1).2 jPoem.playerId =
       some { jPlayer with score := jPlayer.score + 1 } ∧
     ∀ pid, pid ≠ jPoem.playerId →
       getPlayer (selectWinnerHandler judgingStore 1 1).2 pid
         = getPlayer judgingStore pid) :=
  ⟨by decide, @selectWinner_scores_author judgingStore 1 1 jRound jPoem jPlayer
    (by decide) (by decide) (by decide) (by decide) (by decide)⟩

/-! ### C3: winner selection is not idempotent -/

/-- C3: winner selection is not guarded by round status: a second
invocation with the same poem also returns ok — although the round is
already completed after the first — and the author's score ends up
incremented by 2 in total. -/
theorem selectWinner_double_increments
    {st : Storage} {roundId poemId : Nat} {round : Round} {poem : Poem}
    {pl : Player}
    (hr : getRound st roundId = some round)
    (hp : getPoem st poemId = some poem)
    (hpl : getPlayer st poem.playerId = some pl) :
    (selectWinnerHandler st roundId poemId).1 = .ok () ∧
    (getRound (selectWinnerHandler st roundId poemId).2 roundId).map
      (fun r => r.status) = some "completed" ∧
    (selectWinnerHandler (selectWinnerHandler st roundId poemId).2
      roundId poemId).1 = .ok () ∧
    getPlayer (selectWinnerHandler (selectWinnerHandler st roundId poemId).2
      roundId poemId).2 poem.playerId = some { pl with score := pl.score + 2 } := by
  have hval1 := selectWinnerHandler_eq hp hr
  have hpB : getPoem (selectWinnerHandler st roundId poemId).2 poemId
      = some poem := by rw [hval1]; exact hp
  have hrB : getRound (selectWinnerHandler st roundId poemId).2 roundId
      = some { round with winnerId := some poem.playerId, status := "completed" } := by
    rw [hval1]
    exact getRound_setRoundWinner_self hr poem.playerId
  have hplB : getPlayer (selectWinnerHandler st roundId poemId).2 poem.playerId
      = some { pl with score := pl.score + 1 } := by
    rw [hval1]
    exact getPlayer_updatePlayerScore_self
      (show getPlayer (setRoundWinner st roundId poem.playerId) poem.playerId
        = some pl from hpl) 1
  have hval2 := selectWinnerHandler_eq hpB hrB
  refine ⟨by rw [hval1], by rw [hrB]; rfl, by rw [hval2], ?_⟩
  rw [hval2]
  exact getPlayer_updatePlayerScore_self
    (show getPlayer (setRoundWinner (selectWinnerHandler st roundId poemId).2
      roundId poem.playerId) poem.playerId
      = some { pl with score := pl.score + 1 } from hplB) 1

/-- C3 witness: selecting poem 1 twice on `judgingStore` double-increments
player record 2. -/
theorem selectWinner_double_increments_witness :
    (getRound judgingStore 1 = some jRound ∧
     getPoem judgingStore 1 = some jPoem ∧
     getPlayer judgingStore jPoem.playerId = some jPlayer) ∧
    ((selectWinnerHandler judgingStore 1 1).1 = .ok () ∧
     (getRound (selectWinnerHandler judgingStore 1 1).2 1).map
       (fun r => r.status) = some "completed" ∧
     (selectWinnerHandler (selectWinnerHandler judgingStore 1 1).2 1 1).1
       = .ok () ∧
     getPlayer (selectWinnerHandler (selectWinnerHandler judgingStore 1 1).2
       1 1).2 jPoem.playerId = some { jPlayer with score := jPlayer.score + 2 }) :=
  ⟨by decide, @selectWinner_double_increments judgingStore 1 1 jRound jPoem
    jPlayer (by decide) (by decide) (by decide)⟩

/-- Lookup of a poem depends only on the poems list. -/
theorem getPoem_congr {st1 st2 : Storage} (h : st1.poems = st2.poems)
    (i : Nat) : getPoem st1 i = getPoem st2 i := by
  unfold getPoem; rw [h]

/-- Poems are untouched by the submit route beyond the submit update
itself. -/
theorem submitPoemHandler_2_poems {st : Storage} {poemId now : Nat}
    {poem : Poem} (hp : getPoem st poemId = some poem)
    (hc : ¬ trimIsEmpty poem.content = true) :
    (submitPoemHandler st poemId now).2.poems
      = (submitPoem st poemId now).poems := by
  simp only [submitPoemHandler, hp, if_neg hc]
  cases hgr : getRound (submitPoem st poemId now) poem.roundId with
  | none => rfl
  | some round =>
    show (if allSubmitted (submitPoem st poemId now) round.id = true
          ∧ round.status = "writing" then
        updateRoundStatus (submitPoem st poemId now) round.id "judging"
      else submitPoem st poemId now).poems = (submitPoem st poemId now).poems
    by_cases hcond : allSubmitted (submitPoem st poemId now) round.id = true
        ∧ round.status = "writing"
    · rw [if_pos hcond]; rfl
    · rw [if_neg hcond]

/-- The submit route reports ok whenever the poem exists with non-blank
content. -/
theorem submitPoemHandler_1_ok {st : Storage} {poemId now : Nat}
    {poem : Poem} (hp : getPoem st poemId = some poem)
    (hc : ¬ trimIsEmpty poem.content = true) :
    (submitPoemHandler st poemId now).1 = .ok () := by
  simp only [submitPoemHandler, hp, if_neg hc]

/-! ### C7: blank submissions rejected, non-blank ones recorded -/

/-- C7: submitting a blank-content poem fails with a validation error and
leaves the entire store (hence the poem's submitted flag and timestamp)
unchanged; submitting a poem with non-blank content succeeds and records
`submitted = true` together with the submission timestamp. -/
theorem submit_blank_rejected_nonblank_recorded :
    (∀ (st : Storage) (poemId now : Nat) (poem : Poem),
      getPoem st poemId = some poem → trimIsEmpty poem.content = true →
      submitPoemHandler st poemId now =
        (.error (.validationError "Cannot submit empty poem"), st)) ∧
    (∀ (st : Storage) (poemId now : Nat) (poem : Poem),
      getPoem st poemId = some poem → ¬ trimIsEmpty poem.content = true →
      ∃ st', submitPoemHandler st poemId now = (.ok (), st') ∧
        getPoem st' poemId =
          some { poem with submitted := true, submittedAt := some now }) := by
  constructor
  · intro st poemId now poem hp hblank
    simp only [submitPoemHandler, hp, if_pos hblank]
  · intro st poemId now poem hp hblank
    refine ⟨(submitPoemHandler st poemId now).2, ?_, ?_⟩
    · exact Prod.ext (@submitPoemHandler_1_ok st poemId now poem hp hblank) rfl
    · rw [getPoem_congr (submitPoemHandler_2_poems hp hblank) poemId]
      exact getPoem_submitPoem_self hp now

/-- The poem of `blankStore`, whose content is whitespace only. -/
def blankPoem : Poem := ⟨1, 1, 2, "   ", false, none⟩

/-- A store holding one blank unsubmitted poem. -/
def blankStore : Storage :=
  { games := [], players := [], rounds := [], poems := [blankPoem],
    gameIdCounter := 1, playerIdCounter := 1,
    roundIdCounter := 1, poemIdCounter := 2 }

/-- The round of `writingStore`, in the writing phase. -/
def wRound : Round :=
  ⟨1, 1, 1, 10, ["ocean", "star", "rain", "moon", "sky"], "writing",
   300, some 900, none⟩

/-- The last unsubmitted poem of `writingStore`, with non-blank content. -/
def wPoem : Poem := ⟨1, 1, 2, "my ocean poem", false, none⟩

/-- A three-player game whose round 1 is in writing, with one poem still
unsubmitted. -/
def writingStore : Storage :=
  { games := [⟨1, "g", 10, 1, 3, 0, "active"⟩],
    players := [⟨1, 1, 10, 0, true⟩, ⟨2, 1, 20, 0, false⟩, ⟨3, 1, 30, 0, false⟩],
    rounds := [wRound],
    poems := [wPoem, ⟨2, 1, 3, "finished poem", true, some 4⟩],
    gameIdCounter := 2, playerIdCounter := 4,
    roundIdCounter := 2, poemIdCounter := 3 }

/-- C7 witness: the blank poem of `blankStore` is rejected; the non-blank
poem of `writingStore` is recorded with its timestamp. -/
theorem submit_blank_rejected_nonblank_recorded_witness :
    (getPoem blankStore 1 = some blankPoem ∧
     trimIsEmpty blankPoem.content = true ∧
     getPoem writingStore 1 = some wPoem ∧
     ¬ trimIsEmpty wPoem.content = true) ∧
    submitPoemHandler blankStore 1 9 =
      (.error (.validationError "Cannot submit empty poem"), blankStore) ∧
    (∃ st', submitPoemHandler writingStore 1 42 = (.ok (), st') ∧
      getPoem st' 1 =
        some { wPoem with submitted := true, submittedAt := some 42 }) :=
  ⟨by decide,
   submit_blank_rejected_nonblank_recorded.1 blankStore 1 9 blankPoem
     (by decide) (by decide),
   submit_blank_rejected_nonblank_recorded.2 writingStore 1 42 wPoem
     (by decide) (by decide)⟩

/-! ### C6: allSubmitted and the automatic writing → judging transition -/

/-- C6: `allSubmitted` holds exactly when every non-judge poem of the round
is submitted (the rounds in question carry no judge poem), and submitting
the last unsubmitted poem of a round in writing automatically moves the
round to judging with no explicit transition request. -/
theorem allSubmitted_auto_transition :
    (∀ (st : Storage) (rid : Nat) (round : Round),
      getRound st rid = some round →
      (∀ q ∈ getPoemsByRound st rid, q.playerId ≠ round.judgeId) →
      (allSubmitted st rid = true ↔
        ∀ q ∈ getPoemsByRound st rid, q.playerId ≠ round.judgeId →
          q.submitted = true)) ∧
    (∀ (st : Storage) (poemId now : Nat) (poem : Poem) (round : Round),
      getPoem st poemId = some poem →
      getRound st poem.roundId = some round →
      round.status = "writing" →
      ¬ trimIsEmpty poem.content = true →
      (∀ q ∈ getPoemsByRound st poem.roundId, q.id ≠ poemId →
        q.submitted = true) →
      ∃ st', submitPoemHandler st poemId now = (.ok (), st') ∧
        ∃ r', getRound st' poem.roundId = some r' ∧ r'.status = "judging") := by
  constructor
  · intro st rid round _ hjf
    unfold allSubmitted
    rw [List.all_eq_true]
    constructor
    · intro h q hq _
      exact h q hq
    · intro h q hq
      exact h q hq (hjf q hq)
  · intro st poemId now poem round hp hr hw hblank hrest
    have hrid : round.id = poem.roundId := by
      unfold getRound at hr
      simpa using List.find?_some hr
    have h1 : getRound (submitPoem st poemId now) poem.roundId = some round := hr
    have hall : allSubmitted (submitPoem st poemId now) round.id = true := by
      unfold allSubmitted getPoemsByRound submitPoem
      rw [List.all_eq_true]
      intro q' hq'
      rw [List.mem_filter] at hq'
      obtain ⟨hq'mem, hq'rid⟩ := hq'
      rw [List.mem_map] at hq'mem
      obtain ⟨q, hqmem, hfq⟩ := hq'mem
      by_cases hid : (q.id == poemId) = true
      · rw [← hfq]
        simp [hid]
      · rw [← hfq] at hq'rid ⊢
        simp only [hid, Bool.false_eq_true, if_false] at hq'rid ⊢
        have hqr : q.roundId = poem.roundId := by
          rw [← hrid]
          simpa using hq'rid
        have hqmem' : q ∈ getPoemsByRound st poem.roundId := by
          unfold getPoemsByRound
          rw [List.mem_filter]
          exact ⟨hqmem, by simpa using hqr⟩
        exact hrest q hqmem' (by simpa using hid)
    have hout : submitPoemHandler st poemId now =
        (.ok (), updateRoundStatus (submitPoem st poemId now)
          round.id "judging") := by
      simp only [submitPoemHandler, hp, if_neg hblank, h1]
      rw [if_pos ⟨hall, hw⟩]
    rw [hout, hrid]
    exact ⟨_, rfl, _,
      getRound_updateRoundStatus_self h1 "judging", rfl⟩

/-- C6 witness: on `writingStore` the equivalence holds for round 1, and
submitting the last unsubmitted poem flips the round to judging. -/
theorem allSubmitted_auto_transition_witness :
    (getRound writingStore 1 = some wRound ∧
     (∀ q ∈ getPoemsByRound writingStore 1, q.playerId ≠ wRound.judgeId) ∧
     getPoem writingStore 1 = some wPoem ∧
     getRound writingStore wPoem.roundId = some wRound ∧
     wRound.status = "writing" ∧
     ¬ trimIsEmpty wPoem.content = true ∧
     (∀ q ∈ getPoemsByRound writingStore wPoem.roundId, q.id ≠ 1 →
       q.submitted = true)) ∧
    (allSubmitted writingStore 1 = true ↔
      ∀ q ∈ getPoemsByRound writingStore 1, q.playerId ≠ wRound.judgeId →
        q.submitted = true) ∧
    (∃ st', submitPoemHandler writingStore 1 42 = (.ok (), st') ∧
      ∃ r', getRound st' wPoem.roundId = some r' ∧ r'.status = "judging") :=
  ⟨by decide,
   allSubmitted_auto_transition.1 writingStore 1 wRound (by decide) (by decide),
   allSubmitted_auto_transition.2 writingStore 1 42 wPoem wRound
     (by decide) (by decide) (by decide) (by decide) (by decide)⟩

/-! ### C9: the word pool draw -/

/-- C9: every draw returns words of the static pool with no repetition
inside one draw; a count within the pool size yields exactly that many
words, and a count beyond the pool size yields fewer words rather than
repeating any. -/
theorem generateRandomWords_spec (count : Nat) (rand : Nat → Nat) :
    (∀ w ∈ generateRandomWords count rand, w ∈ poeticWords) ∧
    (generateRandomWords count rand).Nodup ∧
    (count ≤ poeticWords.length →
      (generateRandomWords count rand).length = count) ∧
    (poeticWords.length < count →
      (generateRandomWords count rand).length < count) := by
  have hnd : poeticWords.Nodup := by decide
  have hlen := drawLoop_length count rand poeticWords
  refine ⟨drawLoop_subset count rand poeticWords,
    drawLoop_nodup count rand poeticWords hnd, ?_, ?_⟩
  · intro h
    unfold generateRandomWords
    omega
  · intro h
    unfold generateRandomWords
    omega

/-- C9 witness: a draw of 5 with a concrete random stream returns exactly
5 words. -/
theorem generateRandomWords_spec_witness :
    5 ≤ poeticWords.length ∧
    (generateRandomWords 5 (fun i => 7 * i + 3)).length = 5 :=
  ⟨by decide,
   (generateRandomWords_spec 5 (fun i => 7 * i + 3)).2.2.1 (by decide)⟩

/-! ### C10: the exhausted next-round path is not atomic -/

/-- C10: starting the next round of an exhausted game returns an error and
creates no round and no poem, but it first marks the game completed, so the
game record changes even though the operation fails. -/
theorem nextRound_exhausted_marks_completed
    {st : Storage} {gameId : Nat} {game : Game} {words : List String}
    (hg : getGame st gameId = some game)
    (hex : game.totalRounds ≤ game.currentRound) :
    ∃ st', nextRoundHandler st gameId words =
        (.error (.validationError "Game is already completed"), st') ∧
      st'.rounds = st.rounds ∧ st'.poems = st.poems ∧
      getGame st' gameId = some { game with status := "completed" } ∧
      (game.status ≠ "completed" → getGame st' gameId ≠ getGame st gameId) := by
  have hcond : game.currentRound ≥ game.totalRounds := hex
  have hgot : getGame (updateGame st gameId
      (fun g => { g with status := "completed" })) gameId
      = some { game with status := "completed" } :=
    getGame_updateGame_self hg _ (fun x => rfl)
  simp only [nextRoundHandler, hg]
  rw [if_pos hcond]
  refine ⟨_, rfl, rfl, rfl, hgot, ?_⟩
  intro hne heq
  rw [hgot] at heq
  have h3 : ({ game with status := "completed" } : Game) = game :=
    Option.some.inj heq
  have h4 := congrArg (fun g => g.status) h3
  exact hne h4.symm

/-- Lookup of a game depends only on the games list. -/
theorem getGame_congr {st1 st2 : Storage} (h : st1.games = st2.games)
    (i : Nat) : getGame st1 i = getGame st2 i := by
  unfold getGame; rw [h]

/-- The game of `exhaustedStore`: round counter equal to the total. -/
def exGame : Game := ⟨1, "g", 10, 3, 3, 2, "active"⟩

/-- A store whose only game has used up all its rounds. -/
def exhaustedStore : Storage :=
  { games := [exGame],
    players := [⟨1, 1, 10, 2, true⟩, ⟨2, 1, 20, 1, false⟩],
    rounds := [], poems := [],
    gameIdCounter := 2, playerIdCounter := 3,
    roundIdCounter := 4, poemIdCounter := 7 }

/-- C10 witness: the exhausted game of `exhaustedStore` is marked completed
by the failing call. -/
theorem nextRound_exhausted_marks_completed_witness :
    (getGame exhaustedStore 1 = some exGame ∧
     exGame.totalRounds ≤ exGame.currentRound) ∧
    (∃ st', nextRoundHandler exhaustedStore 1 ["a", "b", "c", "d", "e"] =
        (.error (.validationError "Game is already completed"), st') ∧
      st'.rounds = exhaustedStore.rounds ∧ st'.poems = exhaustedStore.poems ∧
      getGame st' 1 = some { exGame with status := "completed" } ∧
      (exGame.status ≠ "completed" →
        getGame st' 1 ≠ getGame exhaustedStore 1)) :=
  ⟨by decide, @nextRound_exhausted_marks_completed exhaustedStore 1 exGame
    ["a", "b", "c", "d", "e"] (by decide) (by decide)⟩

/-! ### C8: judge rotation -/

/-- C8: with a roster of at least 2 and rounds remaining, the next-round
route rotates the judge to roster position
`(currentJudgeIndex + 1) % rosterSize` and creates the new round with that
player as judge; with a roster below 2 it fails with a validation error. -/
theorem nextJudge_rotation :
    (∀ (st : Storage) (gameId : Nat) (game : Game) (words : List String),
      getGame st gameId = some game →
      game.currentRound < game.totalRounds →
      2 ≤ (getPlayersByGame st gameId).length →
      ∃ st' p,
        (getPlayersByGame st gameId)[(game.currentJudgeIndex + 1) %
          (getPlayersByGame st gameId).length]? = some p ∧
        nextRoundHandler st gameId words = (.ok (), st') ∧
        (∃ g', getGame st' gameId = some g' ∧
          g'.currentJudgeIndex = (game.currentJudgeIndex + 1) %
            (getPlayersByGame st gameId).length ∧
          g'.currentRound = game.currentRound + 1) ∧
        ∃ r ∈ st'.rounds, r.gameId = gameId ∧
          r.roundNumber = game.currentRound + 1 ∧ r.judgeId = p.userId) ∧
    (∀ (st : Storage) (gameId : Nat) (game : Game) (words : List String),
      getGame st gameId = some game →
      game.currentRound < game.totalRounds →
      (getPlayersByGame st gameId).length < 2 →
      nextRoundHandler st gameId words =
        (.error (.validationError "Not enough players"), st)) := by
  constructor
  · intro st gameId game words hg hlt hn2
    have hnot : ¬ game.currentRound ≥ game.totalRounds := by omega
    have hcond : ¬ (getPlayersByGame st gameId).length < 2 := by omega
    have hidx : (game.currentJudgeIndex + 1) %
        (getPlayersByGame st gameId).length
        < (getPlayersByGame st gameId).length := Nat.mod_lt _ (by omega)
    simp only [nextRoundHandler, createRound, hg]
    rw [if_neg hnot, dif_neg hcond]
    refine ⟨_, (getPlayersByGame st gameId).get
      ⟨(game.currentJudgeIndex + 1) % (getPlayersByGame st gameId).length,
        hidx⟩, ?_, rfl, ?_, ?_⟩
    · rw [List.getElem?_eq_getElem hidx, List.get_eq_getElem]
    · refine ⟨{ game with
        currentRound := game.currentRound + 1,
        currentJudgeIndex := (game.currentJudgeIndex + 1) %
          (getPlayersByGame st gameId).length }, ?_, rfl, rfl⟩
      exact (getGame_congr (createPoemsFold_games _ _ _ _ _) gameId).trans
        (getGame_updateGame_self hg _ (fun x => rfl))
    · rw [createPoemsFold_rounds]
      exact ⟨_, List.mem_append_right _ (List.mem_singleton_self _),
        rfl, rfl, rfl⟩
  · intro st gameId game words hg hlt hsmall
    have hnot : ¬ game.currentRound ≥ game.totalRounds := by omega
    simp only [nextRoundHandler, hg]
    rw [if_neg hnot, dif_pos hsmall]

/-- The single-player game of `soloStore`. -/
def soloGame : Game := ⟨1, "solo", 10, 1, 3, 0, "waiting"⟩

/-- A store whose only game has a one-player roster. -/
def soloStore : Storage :=
  { games := [soloGame], players := [⟨1, 1, 10, 0, true⟩],
    rounds := [], poems := [],
    gameIdCounter := 2, playerIdCounter := 2,
    roundIdCounter := 1, poemIdCounter := 1 }

/-- C8 witness: rotation on the three-player `judgingStore` (judge index 0
rotates to 1) and rejection on the one-player `soloStore`. -/
theorem nextJudge_rotation_witness :
    (getGame judgingStore 1 = some jGame ∧
     jGame.currentRound < jGame.totalRounds ∧
     2 ≤ (getPlayersByGame judgingStore 1).length ∧
     getGame soloStore 1 = some soloGame ∧
     soloGame.currentRound < soloGame.totalRounds ∧
     (getPlayersByGame soloStore 1).length < 2) ∧
    (∃ st' p,
      (getPlayersByGame judgingStore 1)[(jGame.currentJudgeIndex + 1) %
        (getPlayersByGame judgingStore 1).length]? = some p ∧
      nextRoundHandler judgingStore 1 ["a", "b", "c", "d", "e"] =
        (.ok (), st') ∧
      (∃ g', getGame st' 1 = some g' ∧
        g'.currentJudgeIndex = (jGame.currentJudgeIndex + 1) %
          (getPlayersByGame judgingStore 1).length ∧
        g'.currentRound = jGame.currentRound + 1) ∧
      ∃ r ∈ st'.rounds, r.gameId = 1 ∧
        r.roundNumber = jGame.currentRound + 1 ∧ r.judgeId = p.userId) ∧
    nextRoundHandler soloStore 1 ["a", "b", "c", "d", "e"] =
      (.error (.validationError "Not enough players"), soloStore) :=
  ⟨by decide,
   nextJudge_rotation.1 judgingStore 1 jGame ["a", "b", "c", "d", "e"]
     (by decide) (by decide) (by decide),
   nextJudge_rotation.2 soloStore 1 soloGame ["a", "b", "c", "d", "e"]
     (by decide) (by decide) (by decide)⟩

/-! ### C5: the two kinds of id stored in poem.playerId -/

/-- C5: poems created by the game-creation route carry the author's USER id
in `playerId` (one poem per requested user id other than the host), poems
created by the next-round route carry the author's PLAYER record id (one
poem per non-judge player record), and winner selection always increments
the score of the player record whose id equals `poem.playerId`, whichever
kind of id the poem carries. -/
theorem poem_playerId_provenance :
    (∀ (st : Storage) (name : String) (totalRounds hostId : Nat)
        (rest : List Nat) (words : List String),
      1 ≤ name.length → name.length ≤ 100 →
      1 ≤ totalRounds → totalRounds ≤ 10 →
      2 ≤ (hostId :: rest).length → (hostId :: rest).length ≤ 5 →
      ∃ st', createGameHandler st name totalRounds (hostId :: rest) words
          = (.ok (), st') ∧
        ∃ rid, (∃ r ∈ st'.rounds, r.id = rid ∧ r.judgeId = hostId ∧
            r.roundNumber = 1) ∧
          ∀ uid ∈ hostId :: rest, uid ≠ hostId →
            ∃ q ∈ st'.poems, q.roundId = rid ∧ q.playerId = uid) ∧
    (∀ (st : Storage) (gameId : Nat) (game : Game) (words : List String),
      getGame st gameId = some game →
      game.currentRound < game.totalRounds →
      2 ≤ (getPlayersByGame st gameId).length →
      ∃ st' rid judgeUserId,
        nextRoundHandler st gameId words = (.ok (), st') ∧
        (∃ r ∈ st'.rounds, r.id = rid ∧ r.judgeId = judgeUserId ∧
          r.roundNumber = game.currentRound + 1) ∧
        ∀ p ∈ getPlayersByGame st gameId, p.userId ≠ judgeUserId →
          ∃ q ∈ st'.poems, q.roundId = rid ∧ q.playerId = p.id) ∧
    (∀ (st : Storage) (roundId poemId : Nat) (poem : Poem) (pl : Player)
        (st' : Storage),
      getPoem st poemId = some poem →
      getPlayer st poem.playerId = some pl →
      selectWinnerHandler st roundId poemId = (.ok (), st') →
      getPlayer st' poem.playerId = some { pl with score := pl.score + 1 }) := by
  refine ⟨?_, ?_, ?_⟩
  · intro st name totalRounds hostId rest words hn1 hn2 h1 h2 h3 h4
    have hcnd : 1 ≤ name.length ∧ name.length ≤ 100 ∧
        1 ≤ totalRounds ∧ totalRounds ≤ 10 ∧
        2 ≤ (hostId :: rest).length ∧ (hostId :: rest).length ≤ 5 :=
      ⟨hn1, hn2, h1, h2, h3, h4⟩
    simp only [createGameHandler, createGame, createRound]
    rw [dif_pos hcnd]
    refine ⟨_, rfl, ?_⟩
    rw [createPoemsFold_rounds]
    refine ⟨_, ⟨_, List.mem_append_right _ (List.mem_singleton_self _),
      rfl, rfl, rfl⟩, ?_⟩
    intro uid hmem hne
    obtain ⟨q, hq, hqr, hqp, _⟩ :=
      createPoemsFold_mem _
        (fun u => u == (hostId :: rest).get ⟨0, by simp⟩)
        (fun u => u) (hostId :: rest) _ uid hmem (by simpa using hne)
    exact ⟨q, hq, hqr, hqp⟩
  · intro st gameId game words hg hlt hn2
    have hnot : ¬ game.currentRound ≥ game.totalRounds := by omega
    have hcond : ¬ (getPlayersByGame st gameId).length < 2 := by omega
    have hidx : (game.currentJudgeIndex + 1) %
        (getPlayersByGame st gameId).length
        < (getPlayersByGame st gameId).length := Nat.mod_lt _ (by omega)
    simp only [nextRoundHandler, createRound, hg]
    rw [if_neg hnot, dif_neg hcond]
    refine ⟨_,
      (updateGame st gameId (fun g =>
        { g with currentRound := game.currentRound + 1,
                 currentJudgeIndex := (game.currentJudgeIndex + 1) %
                   (getPlayersByGame st gameId).length })).roundIdCounter,
      ((getPlayersByGame st gameId).get
        ⟨(game.currentJudgeIndex + 1) % (getPlayersByGame st gameId).length,
          hidx⟩).userId,
      rfl, ?_, ?_⟩
    · rw [createPoemsFold_rounds]
      exact ⟨_, List.mem_append_right _ (List.mem_singleton_self _),
        rfl, rfl, rfl⟩
    · intro p hpmem hne
      obtain ⟨q, hq, hqr, hqp, _⟩ :=
        createPoemsFold_mem _
          (fun x => x.userId == ((getPlayersByGame st gameId).get
            ⟨(game.currentJudgeIndex + 1) %
                (getPlayersByGame st gameId).length,
              Nat.mod_lt _ (by omega)⟩).userId)
          (fun x => x.id) (getPlayersByGame st gameId) _ p hpmem
          (by simpa using hne)
      exact ⟨q, hq, hqr, hqp⟩
  · intro st roundId poemId poem pl st' hp hpl hsel
    cases hgr : getRound st roundId with
    | none =>
      rw [selectWinnerHandler_eq_notFound hp hgr] at hsel
      exact absurd (congrArg Prod.fst hsel) (by simp)
    | some r =>
      rw [selectWinnerHandler_eq hp hgr] at hsel
      have hst' : updatePlayerScore (setRoundWinner st roundId poem.playerId)
          poem.playerId 1 = st' := congrArg Prod.snd hsel
      rw [← hst']
      exact getPlayer_updatePlayerScore_self
        (show getPlayer (setRoundWinner st roundId poem.playerId) poem.playerId
          = some pl from hpl) 1

/-- A store with nothing in it yet, for exercising game creation. -/
def baseStore : Storage :=
  { games := [], players := [], rounds := [], poems := [],
    gameIdCounter := 1, playerIdCounter := 1,
    roundIdCounter := 1, poemIdCounter := 1 }

/-- C5 witness: creating a game for user ids 10, 20, 30 stores user ids in
the round-1 poems; the next round on `judgingStore` stores player record
ids; and winner selection on poem 1 increments player record 2. -/
theorem poem_playerId_provenance_witness :
    (1 ≤ ("g" : String).length ∧ ("g" : String).length ≤ 100 ∧
     (1 : Nat) ≤ 3 ∧ (3 : Nat) ≤ 10 ∧
     2 ≤ ((10 : Nat) :: [20, 30]).length ∧
     ((10 : Nat) :: [20, 30]).length ≤ 5 ∧
     getGame judgingStore 1 = some jGame ∧
     jGame.currentRound < jGame.totalRounds ∧
     2 ≤ (getPlayersByGame judgingStore 1).length ∧
     getPoem judgingStore 1 = some jPoem ∧
     getPlayer judgingStore jPoem.playerId = some jPlayer ∧
     selectWinnerHandler judgingStore 1 1 =
       (.ok (), (selectWinnerHandler judgingStore 1 1).2)) ∧
    (∃ st', createGameHandler baseStore "g" 3 ((10 : Nat) :: [20, 30])
        ["ocean"] = (.ok (), st') ∧
      ∃ rid, (∃ r ∈ st'.rounds, r.id = rid ∧ r.judgeId = 10 ∧
          r.roundNumber = 1) ∧
        ∀ uid ∈ (10 : Nat) :: [20, 30], uid ≠ 10 →
          ∃ q ∈ st'.poems, q.roundId = rid ∧ q.playerId = uid) ∧
    (∃ st' rid judgeUserId,
      nextRoundHandler judgingStore 1 ["ocean"] = (.ok (), st') ∧
      (∃ r ∈ st'.rounds, r.id = rid ∧ r.judgeId = judgeUserId ∧
        r.roundNumber = jGame.currentRound + 1) ∧
      ∀ p ∈ getPlayersByGame judgingStore 1, p.userId ≠ judgeUserId →
        ∃ q ∈ st'.poems, q.roundId = rid ∧ q.playerId = p.id) ∧
    getPlayer (selectWinnerHandler judgingStore 1 1).2 jPoem.playerId =
      some { jPlayer with score := jPlayer.score + 1 } :=
  ⟨by decide,
   poem_playerId_provenance.1 baseStore "g" 3 10 [20, 30] ["ocean"]
     (by decide) (by decide) (by decide) (by decide) (by decide) (by decide),
   poem_playerId_provenance.2.1 judgingStore 1 jGame ["ocean"]
     (by decide) (by decide) (by decide),
   poem_playerId_provenance.2.2 judgingStore 1 1 jPoem jPlayer
     (selectWinnerHandler judgingStore 1 1).2
     (by decide) (by decide) (by decide)⟩

end FiveWords
